import Mathlib

/-!
Verification of the appmax-shopify order synchronization engine.

The definitions below are a shallow embedding of the repository's core:

* `src/database/db.js` — the durable retry-queue store (`request_queue`
  table) and the order-mapping store (`orders` table), embedded as pure
  functions over lists of rows;
* `src/controllers/webhook.controller.js` — the event classifier (the
  `switch` in `handleAppmax` together with the per-event handlers), embedded
  as `classifyEvent`;
* `src/services/shopify.service.js` — the sync orchestrator
  (`processOrder`, `findOrderByAppmaxId`, `updateOrder`, `formatOrderData`,
  `makeRequest`, `isRetryableError`, `lockOrder`/`releaseLock`,
  `processQueue`), embedded as state transformers over a `World` record.

Remote (Shopify) behaviour is modelled explicitly: the sink's order store is
a list inside `World`; nondeterministic remote outcomes (whether the bounded
30-day/250-row listing window contains a matching order, and the outcome of
a create call) are supplied by an `Env` of oracles.  Wall-clock waiting
(setTimeout) is not modelled; only the decisions that depend on it are.
-/

/-! ### JavaScript-level error values

`AppError` (src/utils/AppError.js, not among the sources; its shape is fixed
by its uses: `new AppError(message, statusCode)`, and `err.statusCode` /
`err.isOperational` reads in `errorHandler.js` and
`findOrderByAppmaxId`) carries a message and a status code and—unlike a raw
axios error—has no `response` property.  A raw axios failure either carries
the HTTP response (`response = some r`) or is a network error
(`response = none`). -/

/-- The `data.errors` payload of a Shopify error response: absent, a plain
string, or an object mapping field names to lists of messages. -/
inductive ErrorsData where
  | noErrors : ErrorsData
  | str (s : String) : ErrorsData
  | obj (fields : List (String × List String)) : ErrorsData
deriving DecidableEq, Repr

/-- An HTTP error response from the sink API: status plus `data.errors`. -/
structure HttpResponse where
  status : Nat
  errors : ErrorsData
deriving DecidableEq, Repr

/-- A JavaScript error value as observed by the service code:
`appError m c` is an `AppError` instance (message, statusCode — no
`response` property); `axiosError (some r)` is a raw axios error carrying
the HTTP response; `axiosError none` is a network error without response;
`nullDeref` is a TypeError from reading a property of `null`. -/
inductive JsError where
  | appError (message : String) (statusCode : Nat) : JsError
  | axiosError (response : Option HttpResponse) : JsError
  | nullDeref (message : String) : JsError
deriving DecidableEq, Repr

/-- JavaScript `error.response?.status` — only raw axios errors with a
response carry a status there. -/
def JsError.responseStatus : JsError → Option Nat
  | .axiosError (some r) => some r.status
  | _ => none

/-- JavaScript `error.message || defaults` — the message property of the
error value. -/
def JsError.message : JsError → String
  | .appError m _ => m
  | .axiosError _ => "Request failed"
  | .nullDeref m => m

/-- Whether the value is an `AppError` instance (`error instanceof AppError`). -/
def JsError.isAppError : JsError → Bool
  | .appError _ _ => true
  | _ => false

/-- Builds the message of the validation `AppError` thrown by the response
interceptor in `shopify.service.js` (`constructor`): for an object,
`field: messages.join(', ')` joined by `'; '`. -/
def errorsDataMessage : ErrorsData → String
  | .noErrors => ""
  | .str s => s
  | .obj fields =>
      String.intercalate "; "
        (fields.map (fun f => f.1 ++ ": " ++ String.intercalate ", " f.2))

/-- The response interceptor installed on `this.client`
(shopify.service.js, constructor): every HTTP error response is converted
into an `AppError` — `Erro de validação` with the formatted `data.errors`
when present, `Erro inesperado` otherwise; a network error (no response) is
rethrown unchanged.  The interceptor's internal retry of 429 responses is
abstracted: the outcome oracles below give the final outcome after any such
retries.  Note the resulting `AppError` has NO `response` property. -/
def interceptError (response : Option HttpResponse) : JsError :=
  match response with
  | some r =>
      match r.errors with
      | .noErrors => .appError "Erro inesperado na API da Shopify" r.status
      | e => .appError ("Erro de validação na Shopify: " ++ errorsDataMessage e) r.status
  | none => .axiosError none

/-! ### Appmax order payloads (the webhook `data`) -/

/-- A product inside a bundle of an Appmax order payload. -/
structure AppmaxProduct where
  name : String
  quantity : Nat
  price : String
  sku : String
deriving DecidableEq, Repr

/-- A bundle of an Appmax order payload; `products` may be absent. -/
structure AppmaxBundle where
  products : Option (List AppmaxProduct)
deriving DecidableEq, Repr

/-- The customer sub-record of an Appmax order payload.  Optional fields
are those the service guards with `|| ''` or truthiness checks. -/
structure AppmaxCustomer where
  firstname : String
  lastname : String
  email : String
  telephone : Option String
  document_number : Option String
  address_street : String
  address_street_number : String
  address_street_complement : Option String
  address_city : String
  address_state : String
  postcode : String
deriving DecidableEq, Repr

/-- An Appmax order payload as consumed by the service.  Fields the code
tests for truthiness are `Option`s. -/
structure AppmaxOrder where
  id : Nat
  status : String
  payment_type : Option String
  card_brand : Option String
  installments : Option Nat
  billet_url : Option String
  billet_date_overdue : Option String
  total : String
  total_products : String
  discount : Option String
  freight_value : Option String
  freight_type : Option String
  bundles : Option (List AppmaxBundle)
  customer : AppmaxCustomer
deriving DecidableEq, Repr

/-! ### Queue store (src/database/db.js, `request_queue` table) -/

/-- One row of the `request_queue` table. -/
structure QueueRow where
  id : Nat
  appmax_id : Nat
  event_type : String
  status : String
  financial_status : String
  request_data : AppmaxOrder
  created_at : Nat
  processed_at : Option Nat
  attempts : Nat
  error : Option String
deriving DecidableEq, Repr

/-- Insertion step of the `ORDER BY created_at ASC` sort. -/
def insertByCreatedAt (r : QueueRow) : List QueueRow → List QueueRow
  | [] => [r]
  | x :: xs =>
      if r.created_at ≤ x.created_at then r :: x :: xs
      else x :: insertByCreatedAt r xs

/-- Sorts queue rows by `created_at` ascending (the SELECT's ORDER BY). -/
def sortByCreatedAt : List QueueRow → List QueueRow
  | [] => []
  | x :: xs => insertByCreatedAt x (sortByCreatedAt xs)

/-- `db.getUnprocessedRequests`: SELECT * FROM request_queue WHERE
processed_at IS NULL AND attempts < 3 ORDER BY created_at ASC. -/
def getUnprocessedRequests (q : List QueueRow) : List QueueRow :=
  sortByCreatedAt (q.filter (fun r => r.processed_at.isNone && decide (r.attempts < 3)))

/-- `db.markRequestAsProcessed(requestId, error)`: UPDATE request_queue SET
processed_at = CURRENT_TIMESTAMP, attempts = attempts + 1, error = ?
WHERE id = ?.  `now` stands for CURRENT_TIMESTAMP. -/
def markRequestAsProcessed (q : List QueueRow) (requestId : Nat)
    (error : Option String) (now : Nat) : List QueueRow :=
  q.map (fun r =>
    if r.id = requestId then
      { r with processed_at := some now, attempts := r.attempts + 1, error := error }
    else r)

/-! ### Event classifier (src/controllers/webhook.controller.js)

The `switch (event)` in `handleAppmax` dispatches to per-event handlers,
each of which either calls `createOrUpdateOrder` with a fixed
status/financialStatus pair, or `refundOrder`, or `cancelOrder`, or only
logs.  `classifyEvent` is that dispatch table. -/

/-- The action a webhook event is classified into. -/
inductive WebhookAction where
  | createOrUpdate (status : String) (financialStatus : String) : WebhookAction
  | refund : WebhookAction
  | cancel : WebhookAction
  | logOnly : WebhookAction
deriving DecidableEq, Repr

/-- The event dispatch of `handleAppmax` combined with the status pairs
hard-coded in each handler (`handleOrderApproved` … `handleOrderPixCreated`). -/
def classifyEvent : String → WebhookAction
  | "OrderApproved" => .createOrUpdate "paid" "paid"
  | "OrderPaid" => .createOrUpdate "paid" "paid"
  | "OrderRefund" => .refund
  | "PaymentNotAuthorized" => .cancel
  | "OrderAuthorized" => .createOrUpdate "pending" "pending"
  | "PendingIntegration" => .logOnly
  | "PixGenerated" => .createOrUpdate "pending" "pending"
  | "PixExpired" => .cancel
  | "OrderIntegrated" => .createOrUpdate "pending" "pending"
  | "BoletoExpired" => .cancel
  | "ChargebackDispute" => .createOrUpdate "under_review" "pending"
  | "ChargebackWon" => .createOrUpdate "authorized" "paid"
  | "OrderBilletCreated" => .createOrUpdate "pending" "pending"
  | "OrderPixCreated" => .createOrUpdate "pending" "pending"
  | "OrderPaidByPix" => .createOrUpdate "paid" "paid"
  | _ => .logOnly

/-! ### Shopify-side payloads and formatting (shopify.service.js) -/

/-- JavaScript `v || d` for an optional string: the empty string is falsy. -/
def jsOr (v : Option String) (d : String) : String :=
  match v with
  | some s => if s = "" then d else s
  | none => d

/-- JavaScript truthiness of an optional string. -/
def truthyStr : Option String → Bool
  | some s => s != ""
  | none => false

/-- JavaScript truthiness of an optional number (0 is falsy). -/
def truthyNat : Option Nat → Bool
  | some k => k != 0
  | none => false

/-- Substring of a digit list from index `a` (inclusive) to `b` (exclusive);
used to mirror the negative-index `slice` calls of `formatPhoneNumber`. -/
def phoneSlice (l : List Char) (a b : Nat) : String :=
  String.mk ((l.drop a).take (b - a))

/-- `formatPhoneNumber`: strips non-digits and formats Brazilian numbers of
10–13 digits as `+55 (DD) NNNN[N]-NNNN`; anything else (including a missing
or empty phone, which is falsy) yields null. -/
def formatPhoneNumber (phone : Option String) : Option String :=
  match phone with
  | none => none
  | some p =>
      if p = "" then none
      else
        let numbers := p.data.filter Char.isDigit
        let n := numbers.length
        if n = 11 ∨ n = 13 then
          some ("+55 (" ++ phoneSlice numbers (n - 11) (n - 9) ++ ") "
            ++ phoneSlice numbers (n - 9) (n - 4) ++ "-" ++ phoneSlice numbers (n - 4) n)
        else if n = 10 ∨ n = 12 then
          some ("+55 (" ++ phoneSlice numbers (n - 10) (n - 8) ++ ") "
            ++ phoneSlice numbers (n - 8) (n - 4) ++ "-" ++ phoneSlice numbers (n - 4) n)
        else none

/-- Reads a decimal money string as integer cents (JS `parseFloat`,
restricted to the `"123.45"` shapes these payloads carry). -/
def parseCents (s : String) : Nat :=
  let intPart := s.takeWhile (fun c => c ≠ '.')
  let fracDigits := ((s.drop (intPart.length + 1)).take 2).data.filter Char.isDigit
  let frac :=
    match fracDigits with
    | [] => 0
    | [d] => (d.toNat - 48) * 10
    | d₁ :: d₂ :: _ => (d₁.toNat - 48) * 10 + (d₂.toNat - 48)
  (intPart.toNat?.getD 0) * 100 + frac

/-- Renders integer cents as a two-decimal string. -/
def centsToString (c : Nat) : String :=
  toString (c / 100) ++ "." ++ (if c % 100 < 10 then "0" else "") ++ toString (c % 100)

/-- `(parseFloat(appmaxOrder.total) / appmaxOrder.installments).toFixed(2)`:
the JS floating-point division and toFixed rounding are approximated by
truncating cent arithmetic (this string only feeds a note attribute and no
claim depends on its exact rounding). -/
def formatInstallmentValue (total : String) (installments : Nat) : String :=
  centsToString (parseCents total / installments)

/-- The `appmax_url` note-attribute value. -/
def appmaxUrl (id : Nat) : String :=
  "https://admin.appmax.com.br/v2/sales/orders?order_by=id&sorted_by=desc&page=1&page_size=10&term="
    ++ toString id

/-- The four note attributes both formatters start with. -/
def baseNoteAttributes (o : AppmaxOrder) : List (String × String) :=
  [("appmax_id", toString o.id),
   ("appmax_status", o.status),
   ("appmax_payment_type", o.payment_type.getD ""),
   ("appmax_url", appmaxUrl o.id)]

/-- The `paymentDetails` strings accumulated for a CreditCard order
(`Bandeira: …` when a brand is present, `Nx de R$ V` when installments are). -/
def creditCardPaymentDetails (o : AppmaxOrder) : List String :=
  (if truthyStr o.card_brand then ["Bandeira: " ++ o.card_brand.getD ""] else []) ++
  (if truthyNat o.installments then
     [toString (o.installments.getD 0) ++ "x de R$ "
       ++ formatInstallmentValue o.total (o.installments.getD 0)]
   else [])

/-- The Boleto note attributes shared by both formatters. -/
def boletoNoteAttributes (o : AppmaxOrder) : List (String × String) :=
  if o.payment_type = some "Boleto" then
    (if truthyStr o.billet_url then [("billet_url", o.billet_url.getD "")] else []) ++
    (if truthyStr o.billet_date_overdue then
       [("billet_date_overdue", o.billet_date_overdue.getD "")] else [])
  else []

/-- The note attributes built inside `formatOrderData` (create path): base
four, then for CreditCard `payment_details`, `card_brand`, `installments`
in that order, then the Boleto pair. -/
def createNoteAttributes (o : AppmaxOrder) : List (String × String) :=
  baseNoteAttributes o ++
  (if o.payment_type = some "CreditCard" then
     (if creditCardPaymentDetails o ≠ [] then
        [("payment_details", String.intercalate " | " (creditCardPaymentDetails o))] else []) ++
     (if truthyStr o.card_brand then [("card_brand", o.card_brand.getD "")] else []) ++
     (if truthyNat o.installments then
        [("installments", toString (o.installments.getD 0))] else [])
   else []) ++
  boletoNoteAttributes o

/-- `formatNoteAttributes` (update path): base four, then for CreditCard —
guarded by `card_brand || installments` — `card_brand`, `installments`,
`payment_details` in that order, then the Boleto pair. -/
def formatNoteAttributes (o : AppmaxOrder) : List (String × String) :=
  baseNoteAttributes o ++
  (if o.payment_type = some "CreditCard" ∧ (truthyStr o.card_brand ∨ truthyNat o.installments) then
     (if truthyStr o.card_brand then [("card_brand", o.card_brand.getD "")] else []) ++
     (if truthyNat o.installments then
        [("installments", toString (o.installments.getD 0))] else []) ++
     (if creditCardPaymentDetails o ≠ [] then
        [("payment_details", String.intercalate " | " (creditCardPaymentDetails o))] else [])
   else []) ++
  boletoNoteAttributes o

/-- `formatTags`: `[appmaxOrder.status, 'appmax_status_' + status].filter(Boolean)`. -/
def formatTags (o : AppmaxOrder) (status : String) : List String :=
  [o.status, "appmax_status_" ++ status].filter (fun t => t != "")

/-- A Shopify line item as built by `formatOrderData`. -/
structure LineItem where
  title : String
  quantity : Nat
  price : String
  sku : String
  requires_shipping : Bool
  taxable : Bool
  fulfillment_service : String
  grams : Nat
deriving DecidableEq, Repr

/-- One product of one bundle, as pushed onto `lineItems`. -/
def mkLineItem (p : AppmaxProduct) : LineItem :=
  { title := p.name, quantity := p.quantity, price := p.price, sku := p.sku,
    requires_shipping := true, taxable := true, fulfillment_service := "manual", grams := 0 }

/-- The nested `bundles.forEach(bundle => bundle.products.forEach(push))`
accumulation of `formatOrderData`. -/
def orderLineItems (o : AppmaxOrder) : List LineItem :=
  match o.bundles with
  | none => []
  | some bundles =>
      bundles.foldl
        (fun acc b =>
          acc ++ (match b.products with
                  | none => []
                  | some ps => ps.map mkLineItem))
        []

/-- The `shopifyStatus.financial` lookup table. -/
def financialStatusMap : String → Option String
  | "pending" => some "pending"
  | "paid" => some "paid"
  | "refunded" => some "refunded"
  | "cancelled" => some "voided"
  | _ => none

/-- `shopifyStatus.financial[financialStatus] || 'pending'`. -/
def finalFinancialStatus (financialStatus : String) : String :=
  (financialStatusMap financialStatus).getD "pending"

/-- `shopifyStatus.fulfillment[status] || null`: only `cancelled` maps to a
non-null value (the explicit `null` entries and unknown keys collapse). -/
def finalFulfillmentStatus (status : String) : Option String :=
  match status with
  | "cancelled" => some "cancelled"
  | _ => none

/-- The Shopify customer block of the create payload. -/
structure ShopifyCustomer where
  first_name : String
  last_name : String
  email : String
  phone : Option String
  company : String
deriving DecidableEq, Repr

/-- A Shopify address block of the create payload. -/
structure ShopifyAddress where
  first_name : String
  last_name : String
  company : String
  address1 : String
  address2 : String
  city : String
  province : String
  zip : String
  country : String
  phone : Option String
deriving DecidableEq, Repr

/-- The single shipping line of the create payload. -/
structure ShippingLine where
  price : String
  code : String
  title : String
deriving DecidableEq, Repr

/-- The `order` object POSTed to `/orders.json` by the create path. -/
structure ShopifyOrderPayload where
  line_items : List LineItem
  email : String
  phone : Option String
  customer : ShopifyCustomer
  shipping_address : ShopifyAddress
  billing_address : ShopifyAddress
  financial_status : String
  fulfillment_status : Option String
  currency : String
  tags : List String
  total_price : String
  subtotal_price : String
  total_tax : String
  total_discounts : String
  shipping_lines : List ShippingLine
  note : String
  note_attributes : List (String × String)
deriving DecidableEq, Repr

/-- The address block `formatOrderData` builds (used for both shipping and
billing). -/
def mkShopifyAddress (o : AppmaxOrder) (formattedPhone : Option String) : ShopifyAddress :=
  { first_name := o.customer.firstname,
    last_name := o.customer.lastname,
    company := jsOr o.customer.document_number "",
    address1 := o.customer.address_street ++ ", " ++ o.customer.address_street_number,
    address2 := jsOr o.customer.address_street_complement "",
    city := o.customer.address_city,
    province := o.customer.address_state,
    zip := o.customer.postcode,
    country := "BR",
    phone := formattedPhone }

/-- `formatOrderData(appmaxOrder, status, financialStatus)`: collects line
items from the bundles, throws `AppError('Pedido não contém produtos', 400)`
when none, and otherwise assembles the create payload. -/
def formatOrderData (o : AppmaxOrder) (status financialStatus : String) :
    Except JsError ShopifyOrderPayload :=
  let lineItems := orderLineItems o
  let formattedPhone := formatPhoneNumber o.customer.telephone
  if lineItems = [] then .error (.appError "Pedido não contém produtos" 400)
  else
    .ok
      { line_items := lineItems,
        email := o.customer.email,
        phone := formattedPhone,
        customer :=
          { first_name := o.customer.firstname, last_name := o.customer.lastname,
            email := o.customer.email, phone := formattedPhone,
            company := jsOr o.customer.document_number "" },
        shipping_address := mkShopifyAddress o formattedPhone,
        billing_address := mkShopifyAddress o formattedPhone,
        financial_status := finalFinancialStatus financialStatus,
        fulfillment_status := finalFulfillmentStatus status,
        currency := "BRL",
        tags := [o.status, "appmax_status_" ++ status],
        total_price := o.total,
        subtotal_price := o.total_products,
        total_tax := "0.00",
        total_discounts := jsOr o.discount "0.00",
        shipping_lines :=
          [{ price := jsOr o.freight_value "0.00",
             code := jsOr o.freight_type "Standard",
             title := jsOr o.freight_type "Frete Padrão" }],
        note := "Pedido Appmax #" ++ toString o.id,
        note_attributes := createNoteAttributes o }

/-! ### The world state and remote environment -/

/-- A sink (Shopify) order as far as the service observes it: its id, note
attributes (carrying the `appmax_id` idempotency tag), financial status and
tags. -/
structure ShopifyOrder where
  id : Nat
  note_attributes : List (String × String)
  financial_status : String
  tags : List String
deriving DecidableEq, Repr

/-- Outcome of one remote create call (after the interceptor's internal 429
retries): success, an HTTP error response, or a network error. -/
inductive RemoteOutcome where
  | success : RemoteOutcome
  | httpError (response : HttpResponse) : RemoteOutcome
  | networkError : RemoteOutcome

/-- Oracles for the nondeterministic parts of the remote API:
`searchFinds n` says whether the bounded 30-day/250-row listing window of
the n-th remote search contains the matching order when one exists;
`createOutcome n` is the outcome of the n-th POST `/orders.json`. -/
structure Env where
  searchFinds : Nat → Bool
  createOutcome : Nat → RemoteOutcome

/-- The combined state: the local SQLite tables (`orders` mapping rows and
`request_queue` rows), the remote Shopify order store, the in-memory
`orderLocks` map, the remote id counter, call counters and the log of
GraphQL status mutations (instrumentation used to observe which remote
operations ran), and a clock standing for CURRENT_TIMESTAMP. -/
structure World where
  dbOrders : List (Nat × String)
  requestQueue : List QueueRow
  shopifyOrders : List ShopifyOrder
  orderLocks : List Nat
  nextShopifyId : Nat
  createCalls : Nat
  searchCalls : Nat
  putCalls : Nat
  cancelCalls : Nat
  statusMutations : List (Nat × String)
  clock : Nat
deriving DecidableEq, Repr

/-- `db.findShopifyOrderId`: SELECT shopify_id FROM orders WHERE appmax_id = ?. -/
def findShopifyOrderId (w : World) (appmaxId : Nat) : Option String :=
  (w.dbOrders.find? (fun p => p.1 = appmaxId)).map (fun p => p.2)

/-- `db.saveOrderMapping`: INSERT … ON CONFLICT(appmax_id) DO UPDATE SET
shopify_id = excluded.shopify_id. -/
def saveOrderMapping (w : World) (appmaxId : Nat) (shopifyId : String) : World :=
  if (w.dbOrders.find? (fun p => p.1 = appmaxId)).isSome then
    { w with dbOrders := w.dbOrders.map (fun p => if p.1 = appmaxId then (appmaxId, shopifyId) else p) }
  else
    { w with dbOrders := w.dbOrders ++ [(appmaxId, shopifyId)] }

/-- The `note_attributes.find(attr => attr.name === 'appmax_id' &&
attr.value === appmaxId.toString())` test of `findOrderByAppmaxId`. -/
def hasAppmaxAttr (appmaxId : Nat) (o : ShopifyOrder) : Bool :=
  (o.note_attributes.find? (fun attr => decide (attr.1 = "appmax_id" ∧ attr.2 = toString appmaxId))).isSome

/-- GET `/orders/{id}.json`: the remote returns the stored order, or a 404
whose `data.errors` is the string `Not Found`, which the interceptor turns
into an `AppError` with statusCode 404. -/
def getOrderRemote (w : World) (shopifyId : Nat) : Except JsError ShopifyOrder :=
  match w.shopifyOrders.find? (fun o => o.id = shopifyId) with
  | some o => .ok o
  | none => .error (interceptError (some { status := 404, errors := .str "Not Found" }))

/-- The not-found test of `findOrderByAppmaxId`: `error.response.status ===
404 || error.statusCode === 404 || error.message.includes('Not Found')`
(the message disjunct is subsumed by the statusCode one for intercepted
errors). -/
def is404 (e : JsError) : Bool :=
  match e with
  | .axiosError (some r) => r.status = 404
  | .appError _ c => c = 404
  | _ => false

/-- Decimal value of a digit list (most significant first). -/
def digitsToNat (l : List Char) : Nat :=
  l.foldl (fun n c => n * 10 + (c.toNat - 48)) 0

/-- `String(parseInt(shopifyId, 10))` normalisation of a stored shopify id
(e.g. `"5988756947115.0" → 5988756947115`): the value of the leading digit
prefix, as the numeric id then used in the GET URL (a NaN, which never
arises for the digit strings the service stores, is read as 0). -/
def parseShopifyIdNat (s : String) : Nat :=
  digitsToNat (s.data.takeWhile Char.isDigit)

/-- `isRetryableError`: `[408, 429, 500, 502, 503, 504].includes(error.response?.status)`. -/
def isRetryableError (e : JsError) : Bool :=
  match e.responseStatus with
  | some s => [408, 429, 500, 502, 503, 504].contains s
  | none => false

/-- Outcome of a `makeRequest` run: the final result, the index of the last
attempt performed, and the backoff waits (ms) inserted between attempts. -/
structure MakeRequestResult (α : Type) where
  result : Except JsError α
  finalAttempt : Nat
  waits : List Nat
deriving Repr

/-- The recursion of `makeRequest(requestFn, attempt)` with its depth made
explicit so the function is structurally recursive: `remaining` is the
number of further attempts the `attempt < maxAttempts (= 5)` guard can
still allow (the wrapper passes `5 - attempt`, so the `remaining = 0` case
coincides exactly with the guard failing).  On failure, when the guard and
`isRetryableError` both hold, the call waits `2 ^ attempt * 100` ms and
recurses with `attempt + 1`; otherwise it rethrows.  `requestFn k` is the
outcome of the k-th attempt. -/
def makeRequestAux {α : Type} (requestFn : Nat → Except JsError α) :
    Nat → Nat → MakeRequestResult α
  | remaining, attempt =>
    let backoff := 2 ^ attempt * 100
    match requestFn attempt with
    | .ok v => ⟨.ok v, attempt, []⟩
    | .error e =>
        match remaining with
        | 0 => ⟨.error e, attempt, []⟩
        | r + 1 =>
            if attempt < 5 ∧ isRetryableError e = true then
              let rest := makeRequestAux requestFn r (attempt + 1)
              ⟨rest.result, rest.finalAttempt, backoff :: rest.waits⟩
            else ⟨.error e, attempt, []⟩

/-- `makeRequest(requestFn, attempt = 1)`: at most 5 attempts in total,
retrying only retryable errors with exponential backoff. -/
def makeRequest {α : Type} (requestFn : Nat → Except JsError α) (attempt : Nat) :
    MakeRequestResult α :=
  makeRequestAux requestFn (5 - attempt) attempt

/-- `findOrderByAppmaxId(appmaxId)` (current version): first the local
mapping — on a hit, GET the order by id, treating a 404 as gone (null);
otherwise a bounded remote listing search by the `appmax_id` note
attribute, saving the mapping on a hit. -/
def findOrderByAppmaxId (env : Env) (w : World) (appmaxId : Nat) :
    Except JsError (Option ShopifyOrder) × World :=
  match findShopifyOrderId w appmaxId with
  | some sid =>
      match getOrderRemote w (parseShopifyIdNat sid) with
      | .ok o => (.ok (some o), w)
      | .error e => if is404 e then (.ok none, w) else (.error e, w)
  | none =>
      if env.searchFinds w.searchCalls then
        match w.shopifyOrders.find? (hasAppmaxAttr appmaxId) with
        | some o =>
            (.ok (some o),
             saveOrderMapping { w with searchCalls := w.searchCalls + 1 } appmaxId (toString o.id))
        | none => (.ok none, { w with searchCalls := w.searchCalls + 1 })
      else (.ok none, { w with searchCalls := w.searchCalls + 1 })

/-- Sets the financial status of the addressed sink order (the sink-side
effect of the GraphQL status mutations). -/
def setFinancial (orders : List ShopifyOrder) (orderId : Nat) (fin : String) :
    List ShopifyOrder :=
  orders.map (fun o => if o.id = orderId then { o with financial_status := fin } else o)

/-- `cancelOrder(orderId)` (GraphQL `orderCancel`): voids the sink order. -/
def cancelOrder (w : World) (orderId : Nat) : World :=
  { w with shopifyOrders := setFinancial w.shopifyOrders orderId "voided",
           statusMutations := w.statusMutations ++ [(orderId, "cancel")] }

/-- `refundOrder(orderId)` (GraphQL `refundCreate`): refunds the sink order. -/
def refundOrder (w : World) (orderId : Nat) : World :=
  { w with shopifyOrders := setFinancial w.shopifyOrders orderId "refunded",
           statusMutations := w.statusMutations ++ [(orderId, "refund")] }

/-- `markOrderAsPaid(orderId)` (GraphQL `orderMarkAsPaid`): marks the sink
order paid.  (Failures of this mutation are caught and only logged by
`updateOrder`; the mutation is modelled as succeeding.) -/
def markOrderAsPaid (w : World) (orderId : Nat) : World :=
  { w with shopifyOrders := setFinancial w.shopifyOrders orderId "paid",
           statusMutations := w.statusMutations ++ [(orderId, "markAsPaid")] }

/-- `this.getOrder(orderId)`: GET wrapped in `AppError('Erro ao buscar
pedido na Shopify: …', error.response?.status || 500)` on failure. -/
def getOrder (w : World) (orderId : Nat) : Except JsError ShopifyOrder :=
  match getOrderRemote w orderId with
  | .ok o => .ok o
  | .error e =>
      .error (.appError ("Erro ao buscar pedido na Shopify: " ++ e.message)
        (e.responseStatus.getD 500))

/-- PUT `/orders/{orderId}.json` with `{ id, tags, note_attributes }`: the
remote stores the new tags and note attributes (id and financial status are
untouched) and returns the updated order. -/
def putOrder (w : World) (orderId : Nat) (tags : List String)
    (attrs : List (String × String)) : Except JsError ShopifyOrder × World :=
  match w.shopifyOrders.find? (fun o => o.id = orderId) with
  | none => (.error (interceptError (some { status := 404, errors := .str "Not Found" })), w)
  | some cur =>
      let updated := { cur with tags := tags, note_attributes := attrs }
      (.ok updated,
       { w with
           shopifyOrders := w.shopifyOrders.map (fun o => if o.id = orderId then updated else o),
           putCalls := w.putCalls + 1 })

/-- The status-mutation chain of `updateOrder`: cancel unless already
voided when the transition is cancelled; refund unless already refunded
when it is refunded; mark as paid when it is paid unless the current
financial status is already `paid`, `refunded` or `voided` (in which case
the mutation is skipped and only logged); otherwise nothing. -/
def applyStatusMutation (w : World) (currentOrder : ShopifyOrder) (orderId : Nat)
    (status financialStatus : String) : World :=
  if status = "cancelled" ∨ financialStatus = "cancelled" then
    if currentOrder.financial_status ≠ "voided" then cancelOrder w orderId else w
  else if financialStatus = "refunded" then
    if currentOrder.financial_status ≠ "refunded" then refundOrder w orderId else w
  else if financialStatus = "paid" then
    if ¬ (["paid", "refunded", "voided"].contains currentOrder.financial_status) then
      markOrderAsPaid w orderId
    else w
  else w

/-- `updateOrder(orderId, { appmaxOrder, status, financialStatus })`
(current version): reads the current order, PUTs tags and note attributes,
then runs the guarded status-mutation chain; any error is wrapped in
`AppError('Erro ao atualizar pedido na Shopify: …', error.response?.status
|| 500)`.  Returns the order as of the PUT. -/
def updateOrder (w : World) (orderId : Nat) (o : AppmaxOrder)
    (status financialStatus : String) : Except JsError ShopifyOrder × World :=
  match getOrder w orderId with
  | .error e =>
      (.error (.appError ("Erro ao atualizar pedido na Shopify: " ++ e.message)
        (e.responseStatus.getD 500)), w)
  | .ok currentOrder =>
      match putOrder w orderId (formatTags o status) (formatNoteAttributes o) with
      | (.error e, w1) =>
          (.error (.appError ("Erro ao atualizar pedido na Shopify: " ++ e.message)
            (e.responseStatus.getD 500)), w1)
      | (.ok updatedOrder, w1) =>
          (.ok updatedOrder, applyStatusMutation w1 currentOrder orderId status financialStatus)

/-- POST `/orders.json` through the intercepted client: on success the
remote assigns the next id and stores the order (note attributes, financial
status and tags from the payload); failures surface as intercepted errors.
The surrounding `makeRequest` performs exactly one attempt here because
intercepted errors are never retryable (`isRetryableError_interceptError`). -/
def clientCreateOrder (env : Env) (w : World) (orderData : ShopifyOrderPayload) :
    Except JsError ShopifyOrder × World :=
  match env.createOutcome w.createCalls with
  | .success =>
      (.ok { id := w.nextShopifyId, note_attributes := orderData.note_attributes,
             financial_status := orderData.financial_status, tags := orderData.tags },
       { w with
           createCalls := w.createCalls + 1,
           shopifyOrders := w.shopifyOrders ++
             [{ id := w.nextShopifyId, note_attributes := orderData.note_attributes,
                financial_status := orderData.financial_status, tags := orderData.tags }],
           nextShopifyId := w.nextShopifyId + 1 })
  | .httpError r => (.error (interceptError (some r)), { w with createCalls := w.createCalls + 1 })
  | .networkError => (.error (.axiosError none), { w with createCalls := w.createCalls + 1 })

/-- `lockOrder(orderId)`: in this single-dispatcher model a lock held at
entry cannot be released during the 5 s poll (rows are processed strictly
one at a time), so contention deterministically ends in the
`AppError('Timeout ao aguardar lock…', 500)`; a free lock is claimed. -/
def lockOrder (w : World) (orderId : Nat) : Except JsError World :=
  if orderId ∈ w.orderLocks then
    .error (.appError ("Timeout ao aguardar lock do pedido #" ++ toString orderId) 500)
  else
    .ok { w with orderLocks := orderId :: w.orderLocks }

/-- `releaseLock(orderId)`: `this.orderLocks.delete(orderId)`. -/
def releaseLock (w : World) (orderId : Nat) : World :=
  { w with orderLocks := w.orderLocks.filter (fun i => i ≠ orderId) }

/-- The duplicate-email test of `processOrder`:
`error.response?.status === 422 && error.response?.data?.errors?.['customer.email']`.
Only a raw axios error carries `response`; an `AppError` (which is what the
intercepted client actually throws) never satisfies this. -/
def hasDuplicateEmailConflict (e : JsError) : Bool :=
  match e with
  | .axiosError (some r) =>
      decide (r.status = 422) &&
        (match r.errors with
         | .obj fields => (fields.find? (fun f => f.1 = "customer.email")).isSome
         | _ => false)
  | _ => false

/-- The body of `processOrder` between lock acquisition and release:
resolve the existing order; update it if found; otherwise format and create,
with the duplicate-email fallback re-resolving and updating. -/
def processOrderBody (env : Env) (w : World) (o : AppmaxOrder)
    (status financialStatus : String) : Except JsError ShopifyOrder × World :=
  match findOrderByAppmaxId env w o.id with
  | (.error e, w1) => (.error e, w1)
  | (.ok (some existingOrder), w1) => updateOrder w1 existingOrder.id o status financialStatus
  | (.ok none, w1) =>
      match formatOrderData o status financialStatus with
      | .error e => (.error e, w1)
      | .ok orderData =>
          match clientCreateOrder env w1 orderData with
          | (.ok created, w2) => (.ok created, saveOrderMapping w2 o.id (toString created.id))
          | (.error e, w2) =>
              if hasDuplicateEmailConflict e then
                match findOrderByAppmaxId env w2 o.id with
                | (.ok (some retryOrder), w3) => updateOrder w3 retryOrder.id o status financialStatus
                | (.ok none, w3) => (.error e, w3)
                | (.error e2, w3) => (.error e2, w3)
              else (.error e, w2)

/-- `processOrder({ appmaxOrder, status, financialStatus })`: validates the
payload, acquires the per-order lock, runs the body, releases the lock in
`finally`, and wraps non-`AppError` failures as
`AppError('Erro ao criar/atualizar…', error.response?.status || 500)`. -/
def processOrder (env : Env) (w : World) (appmaxOrder : Option AppmaxOrder)
    (status financialStatus : String) : Except JsError ShopifyOrder × World :=
  match appmaxOrder with
  | none => (.error (.appError "Dados do pedido Appmax inválidos" 400), w)
  | some o =>
      match lockOrder w o.id with
      | .error e => (.error e, w)
      | .ok wLocked =>
          let (res, w1) := processOrderBody env wLocked o status financialStatus
          let w2 := releaseLock w1 o.id
          match res with
          | .ok order => (.ok order, w2)
          | .error e =>
              if e.isAppError then (.error e, w2)
              else
                (.error (.appError ("Erro ao criar/atualizar pedido na Shopify: " ++ e.message)
                  (e.responseStatus.getD 500)), w2)

/-- One pass of `processQueue`: fetches the unprocessed rows and processes
them sequentially, marking each processed with `null` on success or with
`error.message || 'Erro desconhecido'` on failure and moving on (the
rate-limit waits between rows are not modelled). -/
def processQueue (env : Env) (w : World) : World :=
  (getUnprocessedRequests w.requestQueue).foldl
    (fun acc req =>
      match processOrder env acc (some req.request_data) req.status req.financial_status with
      | (.ok _, w1) =>
          { w1 with requestQueue := markRequestAsProcessed w1.requestQueue req.id none w1.clock,
                    clock := w1.clock + 1 }
      | (.error e, w1) =>
          let errorMessage := if e.message = "" then "Erro desconhecido" else e.message
          { w1 with
              requestQueue := markRequestAsProcessed w1.requestQueue req.id (some errorMessage) w1.clock,
              clock := w1.clock + 1 })
    w

/-! ### The superseded service iteration referenced by the cancel path

The `cancelOrder(appmaxOrder)` the webhook controller invokes (second
service iteration, shopify.service.js lines 1382–1397) resolves the order
by its Appmax id and, when none exists, logs and returns `null` without
issuing any cancel call; when one exists it POSTs
`/orders/{id}/cancel.json`. -/

namespace V2

/-- `findOrderByAppmaxId` of that iteration: a remote listing search by the
`appmax_id` note attribute only (no local mapping). -/
def findOrderByAppmaxId (w : World) (appmaxId : Nat) : Option ShopifyOrder :=
  w.shopifyOrders.find? (hasAppmaxAttr appmaxId)

/-- `cancelOrder(appmaxOrder)`: looks the order up; logs and returns `null`
when missing (no cancel call); otherwise POSTs the cancel. -/
def cancelOrder (w : World) (appmaxOrder : AppmaxOrder) :
    Except JsError (Option ShopifyOrder) × World :=
  match findOrderByAppmaxId w appmaxOrder.id with
  | none => (.ok none, w)
  | some existingOrder =>
      (.ok (some { existingOrder with financial_status := "voided" }),
       { w with cancelCalls := w.cancelCalls + 1,
                shopifyOrders := setFinancial w.shopifyOrders existingOrder.id "voided" })

end V2

/-- `handlePaymentNotAuthorized(data)`: awaits `cancelOrder(data)` and then
logs `… na Shopify: #${order.id}` — a property read on the returned value,
which is a TypeError when the cancel path resolved to `null`. -/
def handlePaymentNotAuthorized (w : World) (data : AppmaxOrder) :
    Except JsError Unit × World :=
  match V2.cancelOrder w data with
  | (.error e, w1) => (.error e, w1)
  | (.ok none, w1) => (.error (.nullDeref "Cannot read properties of null reading id"), w1)
  | (.ok (some _), w1) => (.ok (), w1)

/-! ### Concrete fixtures used by the closed theorems and witnesses -/

/-- A customer record with every field populated the way the Appmax webhook
examples carry them. -/
def sampleCustomer : AppmaxCustomer :=
  { firstname := "Ana", lastname := "Silva", email := "ana@example.com",
    telephone := some "11999999999", document_number := none,
    address_street := "Rua A", address_street_number := "10",
    address_street_complement := none, address_city := "Sao Paulo",
    address_state := "SP", postcode := "01000-000" }

/-- A well-formed order payload (one bundle, one product), source id 555. -/
def sampleOrder : AppmaxOrder :=
  { id := 555, status := "aprovado", payment_type := some "Pix",
    card_brand := none, installments := none, billet_url := none,
    billet_date_overdue := none, total := "100.00", total_products := "90.00",
    discount := none, freight_value := none, freight_type := none,
    bundles := some [{ products := some [{ name := "P1", quantity := 1, price := "90.00", sku := "S1" }] }],
    customer := sampleCustomer }

/-- An order payload whose bundles yield no products (`bundles` absent). -/
def noProductsOrder : AppmaxOrder :=
  { id := 10, status := "pendente", payment_type := none,
    card_brand := none, installments := none, billet_url := none,
    billet_date_overdue := none, total := "0.00", total_products := "0.00",
    discount := none, freight_value := none, freight_type := none,
    bundles := none, customer := sampleCustomer }

/-- The initial world: empty tables, empty remote store, no locks. -/
def emptyWorld : World :=
  { dbOrders := [], requestQueue := [], shopifyOrders := [], orderLocks := [],
    nextShopifyId := 1, createCalls := 0, searchCalls := 0, putCalls := 0,
    cancelCalls := 0, statusMutations := [], clock := 0 }

/-- A remote environment where every listing search window contains the
matching order and every create call succeeds. -/
def allSuccessEnv : Env :=
  { searchFinds := fun _ => true, createOutcome := fun _ => .success }

/-- A freshly enqueued `request_queue` row (attempts 0, unprocessed) whose
payload has no products, so processing it deterministically fails. -/
def pendingRow : QueueRow :=
  { id := 1, appmax_id := 10, event_type := "OrderPaid", status := "paid",
    financial_status := "paid", request_data := noProductsOrder,
    created_at := 0, processed_at := none, attempts := 0, error := none }

/-- The world of the dispatcher scenario: exactly the one pending row. -/
def queueWorld : World := { emptyWorld with requestQueue := [pendingRow] }

/-- The duplicate-identity race: the remote already holds an order tagged
with appmax id 555 (created concurrently), the first bounded listing search
misses it, a repeated search would see it, and every create call answers
422 with `errors['customer.email']`. -/
def dupEmailEnv : Env :=
  { searchFinds := fun n => n != 0,
    createOutcome := fun _ =>
      .httpError { status := 422, errors := .obj [("customer.email", ["has already been taken"])] } }

/-- The concurrently created sink order carrying the appmax_id 555 tag. -/
def dupRemoteOrder : ShopifyOrder :=
  { id := 7, note_attributes := [("appmax_id", "555")], financial_status := "pending", tags := [] }

/-- World for the duplicate-identity scenario: the tagged order exists
remotely but no local mapping records it. -/
def dupWorld : World := { emptyWorld with shopifyOrders := [dupRemoteOrder] }

/-- A sink order that is already paid, used to exercise the no-regression
guard of `updateOrder`. -/
def paidRemoteOrder : ShopifyOrder :=
  { id := 3, note_attributes := [("appmax_id", "555")], financial_status := "paid", tags := [] }

/-- World holding only the already-paid sink order. -/
def paidWorld : World := { emptyWorld with shopifyOrders := [paidRemoteOrder] }

/-- An outbound call that fails with a transient 503 on the first two
attempts and succeeds on the third. -/
def transientThenOk : Nat → Except JsError Unit :=
  fun k =>
    if k < 3 then .error (.axiosError (some { status := 503, errors := .noErrors }))
    else .ok ()

/-- A second queue row, used to witness the frame property of
`markRequestAsProcessed` on rows other than the addressed one. -/
def otherRow : QueueRow :=
  { id := 2, appmax_id := 20, event_type := "OrderApproved", status := "paid",
    financial_status := "paid", request_data := sampleOrder,
    created_at := 5, processed_at := none, attempts := 0, error := none }

/-- A world in which the lock for order 555 is already held. -/
def lockedWorld : World := { emptyWorld with orderLocks := [555] }

/-- Observer: the financial status of the sink order with the given id, as
stored remotely. -/
def orderFinancial (w : World) (orderId : Nat) : Option String :=
  (w.shopifyOrders.find? (fun ord => ord.id = orderId)).map (fun ord => ord.financial_status)

/-- The sink order the first paid-transition run of `processOrder` creates
from a payload `o` against the empty world (remote id 1, the payload's
note attributes — headed by the `appmax_id` tag — and financial status
`paid`). -/
def createdOf (o : AppmaxOrder) : ShopifyOrder :=
  { id := 1,
    note_attributes := createNoteAttributes o,
    financial_status := "paid",
    tags := [o.status, "appmax_status_paid"] }

/-- The world after that first run: the created order stored remotely, the
mapping row `o.id ↦ "1"` recorded, one create call and one remote search
performed, and the lock released. -/
def worldAfterCreate (o : AppmaxOrder) : World :=
  { dbOrders := [(o.id, "1")],
    requestQueue := [],
    shopifyOrders := [createdOf o],
    orderLocks := [],
    nextShopifyId := 2,
    createCalls := 1,
    searchCalls := 1,
    putCalls := 0,
    cancelCalls := 0,
    statusMutations := [],
    clock := 0 }

/-- The sink order after the second run's PUT: same id and financial
status, refreshed tags and note attributes. -/
def updatedOf (o : AppmaxOrder) : ShopifyOrder :=
  { id := 1,
    note_attributes := formatNoteAttributes o,
    financial_status := "paid",
    tags := formatTags o "paid" }

/-- The world after the second run: still exactly one sink order and one
mapping row, one create call and one remote search in total, plus the one
PUT of the update. -/
def worldAfterUpdate (o : AppmaxOrder) : World :=
  { dbOrders := [(o.id, "1")],
    requestQueue := [],
    shopifyOrders := [updatedOf o],
    orderLocks := [],
    nextShopifyId := 2,
    createCalls := 1,
    searchCalls := 1,
    putCalls := 1,
    cancelCalls := 0,
    statusMutations := [],
    clock := 0 }

/-! ### Helper lemmas -/

/-- Errors produced by the intercepted client are never retryable: an HTTP
failure has been rewrapped as an `AppError` (no `response` property) and a
network error carries no response either.  Hence every `makeRequest` around
a `this.client` call performs exactly one attempt. -/
theorem isRetryableError_interceptError (r : Option HttpResponse) :
    isRetryableError (interceptError r) = false := by
  cases r with
  | none => rfl
  | some hr =>
      obtain ⟨st, errs⟩ := hr
      cases errs <;> rfl

/-! ### Claim theorems -/

/-- C2: the event classifier assigns `OrderIntegrated` the pair
(pending, pending) and `ChargebackWon` the pair (authorized, paid) — for
neither event the pair (paid, paid) that the specification's status table
(and the repository's own webhook documentation) prescribes. -/
theorem C2_integrated_chargeback_won_mapping :
    classifyEvent "OrderIntegrated" = .createOrUpdate "pending" "pending" ∧
    classifyEvent "ChargebackWon" = .createOrUpdate "authorized" "paid" ∧
    classifyEvent "OrderIntegrated" ≠ .createOrUpdate "paid" "paid" ∧
    classifyEvent "ChargebackWon" ≠ .createOrUpdate "paid" "paid" :=
  ⟨rfl, rfl, by decide, by decide⟩

/-- C1: dispatching the queue over a row whose processing fails marks the
row processed (`processed_at` set) with `attempts = 1`, and the pending-row
fetch then no longer returns it even though `attempts = 1 < 3`: a row is
never retried after its first failure, contradicting the bounded-retry
design the `attempts < 3` filter was written for. -/
theorem C1_failed_row_never_refetched :
    getUnprocessedRequests queueWorld.requestQueue = [pendingRow] ∧
    (processQueue allSuccessEnv queueWorld).requestQueue =
      [{ pendingRow with
          processed_at := some 0,
          attempts := 1,
          error := some "Pedido não contém produtos" }] ∧
    (1 : Nat) < 3 ∧
    getUnprocessedRequests (processQueue allSuccessEnv queueWorld).requestQueue = [] :=
  ⟨rfl, rfl, by decide, rfl⟩

/-- C5: for a `PaymentNotAuthorized` event with no matching sink order the
cancel path does resolve as a no-op — `cancelOrder` finds nothing, issues
no cancel call and returns null — but the handler then reads `order.id` on
that null, so the webhook fails with a TypeError instead of completing the
event without error. -/
theorem C5_cancel_noop_handler_raises :
    V2.cancelOrder emptyWorld sampleOrder = (.ok none, emptyWorld) ∧
    (handlePaymentNotAuthorized emptyWorld sampleOrder).1 =
      .error (.nullDeref "Cannot read properties of null reading id") ∧
    (handlePaymentNotAuthorized emptyWorld sampleOrder).2.cancelCalls = 0 :=
  ⟨rfl, rfl, rfl⟩

/-- C8: a create call failing 422 with `errors['customer.email']` does NOT
trigger the duplicate-email fallback: the interceptor has already rewrapped
the response as an `AppError` without a `response` property, so
`error.response?.status === 422` is false, no re-resolution happens (the
search counter stays at the one pre-create lookup), no update is performed,
and the error propagates — even though a repeated search would have found
the concurrently created order. -/
theorem C8_duplicate_email_fallback_unreachable :
    (processOrder dupEmailEnv dupWorld (some sampleOrder) "paid" "paid").1 =
      .error (.appError "Erro de validação na Shopify: customer.email: has already been taken" 422) ∧
    (processOrder dupEmailEnv dupWorld (some sampleOrder) "paid" "paid").2.searchCalls = 1 ∧
    (processOrder dupEmailEnv dupWorld (some sampleOrder) "paid" "paid").2.putCalls = 0 ∧
    (processOrder dupEmailEnv dupWorld (some sampleOrder) "paid" "paid").2.shopifyOrders = [dupRemoteOrder] ∧
    (processOrder dupEmailEnv dupWorld (some sampleOrder) "paid" "paid").2.dbOrders = [] ∧
    hasDuplicateEmailConflict
      (interceptError (some { status := 422, errors := .obj [("customer.email", ["has already been taken"])] })) = false ∧
    hasDuplicateEmailConflict
      (.axiosError (some { status := 422, errors := .obj [("customer.email", ["has already been taken"])] })) = true :=
  ⟨rfl, rfl, rfl, rfl, rfl, rfl, rfl⟩

/-- C9: `markRequestAsProcessed(requestId, error)` is frame-exact — the
table keeps its length (no row is deleted), every row whose id differs from
the addressed one is returned unchanged, and the addressed row changes only
its `processed_at`, `attempts` (incremented by exactly 1) and `error`
fields, all others (`appmax_id`, `event_type`, `status`,
`financial_status`, `request_data`, `created_at`) being preserved by the
record update. -/
theorem C9_markRequestAsProcessed_frame (q : List QueueRow) (requestId : Nat)
    (error : Option String) (now : Nat) :
    (markRequestAsProcessed q requestId error now).length = q.length ∧
    ∀ i : Nat, ∀ r : QueueRow, q[i]? = some r →
      (r.id ≠ requestId → (markRequestAsProcessed q requestId error now)[i]? = some r) ∧
      (r.id = requestId → (markRequestAsProcessed q requestId error now)[i]? =
        some { r with
                processed_at := some now,
                attempts := r.attempts + 1,
                error := error }) := by
  constructor
  · exact List.length_map ..
  · intro i r hi
    constructor
    · intro hne
      rw [markRequestAsProcessed, List.getElem?_map, hi]
      simp [hne]
    · intro heq
      rw [markRequestAsProcessed, List.getElem?_map, hi]
      simp [heq]

/-- Witness for C9 on a concrete two-row table: marking row 2 with an error
leaves row 1 (different id) untouched and rewrites exactly the three
mutable fields of row 2. -/
theorem C9_markRequestAsProcessed_frame_witness :
    (markRequestAsProcessed [pendingRow, otherRow] 2 (some "boom") 7).length = 2 ∧
    (markRequestAsProcessed [pendingRow, otherRow] 2 (some "boom") 7)[0]? = some pendingRow ∧
    (markRequestAsProcessed [pendingRow, otherRow] 2 (some "boom") 7)[1]? =
      some { otherRow with
              processed_at := some 7,
              attempts := otherRow.attempts + 1,
              error := some "boom" } := by
  have h := C9_markRequestAsProcessed_frame [pendingRow, otherRow] 2 (some "boom") 7
  refine ⟨h.1, (h.2 0 pendingRow rfl).1 (by decide), (h.2 1 otherRow rfl).2 rfl⟩

/-- The attempt counter never moves backwards. -/
theorem makeRequestAux_finalAttempt_ge {α : Type} (requestFn : Nat → Except JsError α) :
    ∀ remaining attempt, attempt ≤ (makeRequestAux requestFn remaining attempt).finalAttempt := by
  intro remaining
  induction remaining with
  | zero =>
      intro attempt
      unfold makeRequestAux
      cases requestFn attempt <;> simp
  | succ r ih =>
      intro attempt
      unfold makeRequestAux
      cases hr : requestFn attempt with
      | ok v => simp
      | error e =>
          by_cases hc : attempt < 5 ∧ isRetryableError e = true
          · simpa [hc] using Nat.le_trans (Nat.le_succ attempt) (ih (attempt + 1))
          · simp [hc]

/-- The guard `attempt < maxAttempts` keeps the last attempt at 5 or below. -/
theorem makeRequestAux_finalAttempt_le {α : Type} (requestFn : Nat → Except JsError α) :
    ∀ remaining attempt, attempt ≤ 5 →
      (makeRequestAux requestFn remaining attempt).finalAttempt ≤ 5 := by
  intro remaining
  induction remaining with
  | zero =>
      intro attempt h5
      unfold makeRequestAux
      cases requestFn attempt <;> simpa
  | succ r ih =>
      intro attempt h5
      unfold makeRequestAux
      cases hr : requestFn attempt with
      | ok v => simpa
      | error e =>
          by_cases hc : attempt < 5 ∧ isRetryableError e = true
          · simpa [hc] using ih (attempt + 1) hc.1
          · simpa [hc]

/-- Every attempt strictly before the last one failed with a retryable
error — retries happen only on transient statuses. -/
theorem makeRequestAux_retried_transient {α : Type} (requestFn : Nat → Except JsError α) :
    ∀ remaining attempt k, attempt ≤ k →
      k < (makeRequestAux requestFn remaining attempt).finalAttempt →
      ∃ e, requestFn k = .error e ∧ isRetryableError e = true := by
  intro remaining
  induction remaining with
  | zero =>
      intro attempt k hak hk
      unfold makeRequestAux at hk
      cases hr : requestFn attempt <;> rw [hr] at hk <;> simp at hk <;> omega
  | succ r ih =>
      intro attempt k hak hk
      unfold makeRequestAux at hk
      cases hr : requestFn attempt with
      | ok v => rw [hr] at hk; simp at hk; omega
      | error e =>
          rw [hr] at hk
          by_cases hc : attempt < 5 ∧ isRetryableError e = true
          · simp only [hc, and_self, if_true] at hk
            rcases Nat.eq_or_lt_of_le hak with heq | hlt
            · exact ⟨e, heq ▸ hr, hc.2⟩
            · exact ih (attempt + 1) k hlt hk
          · simp [hc] at hk; omega

/-- The waits inserted between attempts follow the exponential schedule
`2 ^ (attempt + i) * 100` for `i` below the number of retries performed. -/
theorem makeRequestAux_waits {α : Type} (requestFn : Nat → Except JsError α) :
    ∀ remaining attempt,
      (makeRequestAux requestFn remaining attempt).waits =
        (List.range ((makeRequestAux requestFn remaining attempt).finalAttempt - attempt)).map
          (fun i => 2 ^ (attempt + i) * 100) := by
  intro remaining
  induction remaining with
  | zero =>
      intro attempt
      unfold makeRequestAux
      cases requestFn attempt <;> simp
  | succ r ih =>
      intro attempt
      unfold makeRequestAux
      cases hr : requestFn attempt with
      | ok v => simp
      | error e =>
          by_cases hc : attempt < 5 ∧ isRetryableError e = true
          · simp only [hc, and_self, if_true]
            have hge := makeRequestAux_finalAttempt_ge requestFn r (attempt + 1)
            have hstep :
                (makeRequestAux requestFn r (attempt + 1)).finalAttempt - attempt =
                  ((makeRequestAux requestFn r (attempt + 1)).finalAttempt - (attempt + 1)) + 1 := by
              omega
            rw [ih (attempt + 1), hstep, List.range_succ_eq_map, List.map_cons, List.map_map]
            congr 1
            · simp
              intro a _
              omega
          · simp [hc]

/-- C7: `makeRequest` starting at attempt 1 performs at most 5 attempts;
every retried attempt had failed with an error whose response status is in
the transient list `[408, 429, 500, 502, 503, 504]` (`isRetryableError`);
the wait before attempt `k + 1` is `2 ^ k * 100` ms (base 100); a
non-transient failure at the first attempt propagates immediately with no
retry and no wait; and a transient failure at the first attempt does get
retried. -/
theorem C7_makeRequest_retry_policy {α : Type} (requestFn : Nat → Except JsError α) :
    (makeRequest requestFn 1).finalAttempt ≤ 5 ∧
    (∀ k, 1 ≤ k → k < (makeRequest requestFn 1).finalAttempt →
        ∃ e, requestFn k = .error e ∧ isRetryableError e = true) ∧
    ((makeRequest requestFn 1).waits =
      (List.range ((makeRequest requestFn 1).finalAttempt - 1)).map
        (fun i => 2 ^ (1 + i) * 100)) ∧
    (∀ e, requestFn 1 = .error e → isRetryableError e = false →
        makeRequest requestFn 1 = ⟨.error e, 1, []⟩) ∧
    (∀ e, requestFn 1 = .error e → isRetryableError e = true →
        2 ≤ (makeRequest requestFn 1).finalAttempt) := by
  refine ⟨makeRequestAux_finalAttempt_le requestFn 4 1 (by omega),
          fun k h1 hk => makeRequestAux_retried_transient requestFn 4 1 k h1 hk,
          makeRequestAux_waits requestFn 4 1,
          ?_, ?_⟩
  · intro e he hnr
    unfold makeRequest makeRequestAux
    rw [he]
    simp [hnr]
  · intro e he hr
    unfold makeRequest makeRequestAux
    rw [he]
    simp only [show ((1 : Nat) < 5 ∧ isRetryableError e = true) from ⟨by omega, hr⟩, and_self, if_true]
    simpa using makeRequestAux_finalAttempt_ge requestFn 3 2

/-- Witness for C7: a call failing 503 twice then succeeding stops within
the ceiling after retrying the transient failures with waits 200 ms and
400 ms; a call failing with a non-transient 400 `AppError` propagates at
once with no waits. -/
theorem C7_makeRequest_retry_policy_witness :
    (makeRequest transientThenOk 1).finalAttempt ≤ 5 ∧
    (∃ e, transientThenOk 2 = .error e ∧ isRetryableError e = true) ∧
    ((makeRequest transientThenOk 1).waits =
      (List.range ((makeRequest transientThenOk 1).finalAttempt - 1)).map
        (fun i => 2 ^ (1 + i) * 100)) ∧
    2 ≤ (makeRequest transientThenOk 1).finalAttempt ∧
    makeRequest (fun _ => (.error (.appError "boom" 400) : Except JsError Unit)) 1 =
      ⟨.error (.appError "boom" 400), 1, []⟩ := by
  have h1 := C7_makeRequest_retry_policy transientThenOk
  have h2 := C7_makeRequest_retry_policy (fun _ => (.error (.appError "boom" 400) : Except JsError Unit))
  exact ⟨h1.1, h1.2.1 2 (by decide) (by decide), h1.2.2.1,
         h1.2.2.2.2 _ rfl (by decide), h2.2.2.2.1 _ rfl (by decide)⟩

/-- `saveOrderMapping` touches only the mapping table. -/
theorem saveOrderMapping_orderLocks (w : World) (a : Nat) (s : String) :
    (saveOrderMapping w a s).orderLocks = w.orderLocks := by
  unfold saveOrderMapping
  split <;> rfl

/-- `findOrderByAppmaxId` never touches the lock table. -/
theorem findOrderByAppmaxId_orderLocks (env : Env) (w : World) (a : Nat) :
    ((findOrderByAppmaxId env w a).2).orderLocks = w.orderLocks := by
  unfold findOrderByAppmaxId
  cases hm : findShopifyOrderId w a with
  | some sid =>
      dsimp only
      cases hg : getOrderRemote w (parseShopifyIdNat sid) with
      | ok o => rfl
      | error e =>
          dsimp only
          split <;> rfl
  | none =>
      dsimp only
      split
      · split
        · simp [saveOrderMapping_orderLocks]
        · rfl
      · rfl

/-- The PUT touches only the remote store and the put counter. -/
theorem putOrder_orderLocks (w : World) (orderId : Nat) (tags : List String)
    (attrs : List (String × String)) :
    ((putOrder w orderId tags attrs).2).orderLocks = w.orderLocks := by
  unfold putOrder
  split <;> rfl

/-- The status-mutation chain touches only the remote store and the
mutation log. -/
theorem applyStatusMutation_orderLocks (w : World) (cur : ShopifyOrder) (orderId : Nat)
    (status financialStatus : String) :
    (applyStatusMutation w cur orderId status financialStatus).orderLocks = w.orderLocks := by
  unfold applyStatusMutation cancelOrder refundOrder markOrderAsPaid
  split
  · split <;> rfl
  · split
    · split <;> rfl
    · split
      · split <;> rfl
      · rfl

/-- `updateOrder` never touches the lock table. -/
theorem updateOrder_orderLocks (w : World) (orderId : Nat) (o : AppmaxOrder)
    (status financialStatus : String) :
    ((updateOrder w orderId o status financialStatus).2).orderLocks = w.orderLocks := by
  unfold updateOrder
  cases hg : getOrder w orderId with
  | error e => rfl
  | ok cur =>
      dsimp only
      cases hp : putOrder w orderId (formatTags o status) (formatNoteAttributes o) with
      | mk pres w1 =>
          have hw1 : w1.orderLocks = w.orderLocks := by
            have h := putOrder_orderLocks w orderId (formatTags o status) (formatNoteAttributes o)
            rw [hp] at h
            exact h
          cases pres with
          | error e => simpa using hw1
          | ok u =>
              dsimp only
              rw [applyStatusMutation_orderLocks]
              exact hw1

/-- The create call never touches the lock table. -/
theorem clientCreateOrder_orderLocks (env : Env) (w : World) (od : ShopifyOrderPayload) :
    ((clientCreateOrder env w od).2).orderLocks = w.orderLocks := by
  unfold clientCreateOrder
  cases env.createOutcome w.createCalls <;> rfl

/-- The body of `processOrder` (between lock acquisition and release) never
touches the lock table: every branch — update of a found order, successful
create, formatting failure, create failure with or without the fallback —
preserves `orderLocks`. -/
theorem processOrderBody_orderLocks (env : Env) (w : World) (o : AppmaxOrder)
    (status financialStatus : String) :
    ((processOrderBody env w o status financialStatus).2).orderLocks = w.orderLocks := by
  unfold processOrderBody
  cases hfind : findOrderByAppmaxId env w o.id with
  | mk res w1 =>
      have h1 : w1.orderLocks = w.orderLocks := by
        have h := findOrderByAppmaxId_orderLocks env w o.id
        rw [hfind] at h
        exact h
      cases res with
      | error e => simpa using h1
      | ok oo =>
          cases oo with
          | some ex =>
              dsimp only
              rw [updateOrder_orderLocks]
              exact h1
          | none =>
              dsimp only
              cases hfmt : formatOrderData o status financialStatus with
              | error e => simpa using h1
              | ok od =>
                  dsimp only
                  cases hcc : clientCreateOrder env w1 od with
                  | mk cres w2 =>
                      have h2 : w2.orderLocks = w1.orderLocks := by
                        have h := clientCreateOrder_orderLocks env w1 od
                        rw [hcc] at h
                        exact h
                      cases cres with
                      | ok created =>
                          dsimp only
                          rw [saveOrderMapping_orderLocks, h2]
                          exact h1
                      | error e =>
                          dsimp only
                          by_cases hd : hasDuplicateEmailConflict e = true
                          · simp only [hd, if_true]
                            cases hf2 : findOrderByAppmaxId env w2 o.id with
                            | mk r3 w3 =>
                                have h3 : w3.orderLocks = w2.orderLocks := by
                                  have h := findOrderByAppmaxId_orderLocks env w2 o.id
                                  rw [hf2] at h
                                  exact h
                                cases r3 with
                                | error e2 => simp only []; rw [h3, h2]; exact h1
                                | ok o3 =>
                                    cases o3 with
                                    | some retry =>
                                        dsimp only
                                        rw [updateOrder_orderLocks, h3, h2]
                                        exact h1
                                    | none => dsimp only; rw [h3, h2]; exact h1
                          · simp only [hd, Bool.false_eq_true, if_false]
                            rw [h2]
                            exact h1

/-- C6: when the per-order lock is free, `processOrder` acquires it and —
whatever the outcome (update, create, formatting failure, create failure,
fallback) — releases it on exit, leaving the lock table exactly as it was,
so no terminated invocation keeps holding a lock; when the lock is already
held by an in-flight invocation, `processOrder` fails with the lock-timeout
`AppError` without acquiring or releasing anything. -/
theorem C6_lock_released_on_all_paths (env : Env) (w : World) (o : AppmaxOrder)
    (status financialStatus : String) :
    (o.id ∉ w.orderLocks →
      ((processOrder env w (some o) status financialStatus).2).orderLocks = w.orderLocks) ∧
    (o.id ∈ w.orderLocks →
      processOrder env w (some o) status financialStatus =
        (.error (.appError ("Timeout ao aguardar lock do pedido #" ++ toString o.id) 500), w)) := by
  constructor
  · intro hfree
    unfold processOrder lockOrder
    dsimp only
    rw [if_neg hfree]
    dsimp only
    cases hbody : processOrderBody env { w with orderLocks := o.id :: w.orderLocks } o
        status financialStatus with
    | mk res w1 =>
        have h1 : w1.orderLocks = o.id :: w.orderLocks := by
          have h := processOrderBody_orderLocks env
            { w with orderLocks := o.id :: w.orderLocks } o status financialStatus
          rw [hbody] at h
          exact h
        have hrel : (releaseLock w1 o.id).orderLocks = w.orderLocks := by
          unfold releaseLock
          simp only [h1, List.filter_cons]
          have hhead : (decide (o.id ≠ o.id)) = false := by simp
          rw [hhead]
          simp only [Bool.false_eq_true, if_false]
          apply List.filter_eq_self.mpr
          intro x hx
          simp only [decide_eq_true_eq]
          intro hxx
          exact hfree (hxx ▸ hx)
        cases res with
        | ok order => simpa using hrel
        | error e =>
            dsimp only
            split <;> simpa using hrel
  · intro hheld
    unfold processOrder lockOrder
    dsimp only
    rw [if_pos hheld]

/-- Witness for C6: a fresh world leaves the lock table empty after a full
run, and a world already holding the lock for order 555 yields the
lock-timeout error with the world unchanged. -/
theorem C6_lock_released_on_all_paths_witness :
    ((processOrder allSuccessEnv emptyWorld (some sampleOrder) "paid" "paid").2).orderLocks =
      emptyWorld.orderLocks ∧
    processOrder allSuccessEnv lockedWorld (some sampleOrder) "paid" "paid" =
      (.error (.appError ("Timeout ao aguardar lock do pedido #" ++ toString sampleOrder.id) 500),
       lockedWorld) :=
  ⟨(C6_lock_released_on_all_paths allSuccessEnv emptyWorld sampleOrder "paid" "paid").1
      (by decide),
   (C6_lock_released_on_all_paths allSuccessEnv lockedWorld sampleOrder "paid" "paid").2
      (by decide)⟩

/-- C10: an order payload yielding no line items (no bundles, empty
bundles, or bundles without products) makes the create path of
`processOrder` fail with `AppError('Pedido não contém produtos', 400)`
raised by `formatOrderData` before any create call: the remote store, the
mapping table and the create-call counter are untouched. -/
theorem C10_no_products_fails_before_create (env : Env) (w : World) (o : AppmaxOrder)
    (status financialStatus : String)
    (hempty : orderLineItems o = [])
    (hnolock : o.id ∉ w.orderLocks)
    (hnomap : findShopifyOrderId w o.id = none)
    (hnoremote : ∀ ord ∈ w.shopifyOrders, hasAppmaxAttr o.id ord = false) :
    (processOrder env w (some o) status financialStatus).1 =
      .error (.appError "Pedido não contém produtos" 400) ∧
    ((processOrder env w (some o) status financialStatus).2).shopifyOrders = w.shopifyOrders ∧
    ((processOrder env w (some o) status financialStatus).2).dbOrders = w.dbOrders ∧
    ((processOrder env w (some o) status financialStatus).2).createCalls = w.createCalls := by
  have hfind : findOrderByAppmaxId env { w with orderLocks := o.id :: w.orderLocks } o.id =
      (.ok none, { w with orderLocks := o.id :: w.orderLocks, searchCalls := w.searchCalls + 1 }) := by
    unfold findOrderByAppmaxId
    have hnomap' : findShopifyOrderId { w with orderLocks := o.id :: w.orderLocks } o.id = none :=
      hnomap
    rw [hnomap']
    dsimp only
    split
    · have hf : ({ w with orderLocks := o.id :: w.orderLocks } : World).shopifyOrders.find?
          (hasAppmaxAttr o.id) = none := by
        apply List.find?_eq_none.mpr
        intro x hx
        simp [hnoremote x hx]
      rw [hf]
    · rfl
  have hfmt : formatOrderData o status financialStatus =
      .error (.appError "Pedido não contém produtos" 400) := by
    unfold formatOrderData
    simp [hempty]
  have hbody : processOrderBody env { w with orderLocks := o.id :: w.orderLocks } o
      status financialStatus =
      (.error (.appError "Pedido não contém produtos" 400),
       { w with orderLocks := o.id :: w.orderLocks, searchCalls := w.searchCalls + 1 }) := by
    unfold processOrderBody
    rw [hfind]
    dsimp only
    rw [hfmt]
  unfold processOrder lockOrder
  dsimp only
  rw [if_neg hnolock]
  dsimp only
  rw [hbody]
  dsimp only
  exact ⟨rfl, rfl, rfl, rfl⟩

/-- Witness for C10: the no-products payload against the empty world fails
with the 400 error and leaves remote store, mapping table and create
counter empty. -/
theorem C10_no_products_fails_before_create_witness :
    (processOrder allSuccessEnv emptyWorld (some noProductsOrder) "paid" "paid").1 =
      .error (.appError "Pedido não contém produtos" 400) ∧
    ((processOrder allSuccessEnv emptyWorld (some noProductsOrder) "paid" "paid").2).shopifyOrders =
      emptyWorld.shopifyOrders ∧
    ((processOrder allSuccessEnv emptyWorld (some noProductsOrder) "paid" "paid").2).dbOrders =
      emptyWorld.dbOrders ∧
    ((processOrder allSuccessEnv emptyWorld (some noProductsOrder) "paid" "paid").2).createCalls =
      emptyWorld.createCalls :=
  C10_no_products_fails_before_create allSuccessEnv emptyWorld noProductsOrder "paid" "paid"
    rfl (by decide) rfl (by simp [emptyWorld])

/-- C4: for an existing sink order whose financial status is terminal
(`paid`, `refunded` or `voided`), applying a less-terminal transition — a
`pending` one, or a `paid` one that would re-mark it — succeeds without
error, runs no GraphQL status mutation (the mutation is skipped, the log
records nothing), and leaves the order's financial status exactly as it
was. -/
theorem C4_terminal_status_not_regressed (w : World) (orderId : Nat) (o : AppmaxOrder)
    (status financialStatus : String) (cur : ShopifyOrder)
    (hcur : getOrderRemote w orderId = .ok cur)
    (hterm : cur.financial_status ∈ (["paid", "refunded", "voided"] : List String))
    (hnc : status ≠ "cancelled")
    (hfin : financialStatus = "pending" ∨ financialStatus = "paid") :
    (∃ ord, (updateOrder w orderId o status financialStatus).1 = .ok ord) ∧
    ((updateOrder w orderId o status financialStatus).2).statusMutations = w.statusMutations ∧
    orderFinancial ((updateOrder w orderId o status financialStatus).2) orderId =
      some cur.financial_status := by
  have hfind : w.shopifyOrders.find? (fun ord => ord.id = orderId) = some cur := by
    unfold getOrderRemote at hcur
    cases hf : w.shopifyOrders.find? (fun ord => ord.id = orderId) with
    | some o2 =>
        rw [hf] at hcur
        simp only [Except.ok.injEq] at hcur
        rw [hcur]
    | none =>
        rw [hf] at hcur
        simp at hcur
  have hcurid : cur.id = orderId := by
    have h := List.find?_some hfind
    simpa using h
  have hget : getOrder w orderId = .ok cur := by
    unfold getOrder
    rw [hcur]
  have hput : putOrder w orderId (formatTags o status) (formatNoteAttributes o) =
      (.ok { cur with tags := formatTags o status, note_attributes := formatNoteAttributes o },
       { w with
           shopifyOrders := w.shopifyOrders.map (fun ord =>
             if ord.id = orderId then
               { cur with tags := formatTags o status, note_attributes := formatNoteAttributes o }
             else ord),
           putCalls := w.putCalls + 1 }) := by
    unfold putOrder
    rw [hfind]
  have hcontains : (["paid", "refunded", "voided"].contains cur.financial_status) = true := by
    simpa using hterm
  have hmut : ∀ w1 : World, applyStatusMutation w1 cur orderId status financialStatus = w1 := by
    intro w1
    unfold applyStatusMutation
    have h1 : ¬(status = "cancelled" ∨ financialStatus = "cancelled") := by
      rcases hfin with h | h <;> rw [h] <;> simpa using hnc
    rw [if_neg h1]
    rcases hfin with h | h
    · rw [h]
      simp
    · rw [h]
      simp [hcontains]
      intro hp hr hv
      simp [hp, hr, hv] at hterm
  have hupd : updateOrder w orderId o status financialStatus =
      (.ok { cur with tags := formatTags o status, note_attributes := formatNoteAttributes o },
       { w with
           shopifyOrders := w.shopifyOrders.map (fun ord =>
             if ord.id = orderId then
               { cur with tags := formatTags o status, note_attributes := formatNoteAttributes o }
             else ord),
           putCalls := w.putCalls + 1 }) := by
    unfold updateOrder
    rw [hget]
    dsimp only
    rw [hput]
    dsimp only
    rw [hmut]
  rw [hupd]
  refine ⟨⟨_, rfl⟩, rfl, ?_⟩
  · unfold orderFinancial
    dsimp only
    rw [List.find?_map]
    have hpf : ((fun ord : ShopifyOrder => decide (ord.id = orderId)) ∘ (fun ord =>
        if ord.id = orderId then
          { cur with tags := formatTags o status, note_attributes := formatNoteAttributes o }
        else ord)) = (fun ord : ShopifyOrder => decide (ord.id = orderId)) := by
      funext ord
      by_cases h : ord.id = orderId
      · simp [h, hcurid]
      · simp [h]
    rw [hpf, hfind]
    simp [hcurid]

/-- Witness for C4: a `pending` transition against an already-paid sink
order (id 3) succeeds, runs no status mutation, and leaves the order paid. -/
theorem C4_terminal_status_not_regressed_witness :
    (∃ ord, (updateOrder paidWorld 3 sampleOrder "pending" "pending").1 = .ok ord) ∧
    ((updateOrder paidWorld 3 sampleOrder "pending" "pending").2).statusMutations =
      paidWorld.statusMutations ∧
    orderFinancial ((updateOrder paidWorld 3 sampleOrder "pending" "pending").2) 3 =
      some paidRemoteOrder.financial_status :=
  C4_terminal_status_not_regressed paidWorld 3 sampleOrder "pending" "pending" paidRemoteOrder
    rfl (by decide) (by decide) (Or.inl rfl)

/-- Against the empty world (no mapping, no matching remote order, create
succeeding), a paid-transition `processOrder` creates the sink order and
records the mapping. -/
theorem processOrder_fresh_creates (o : AppmaxOrder) (h : orderLineItems o ≠ []) :
    processOrder allSuccessEnv emptyWorld (some o) "paid" "paid" =
      (.ok (createdOf o), worldAfterCreate o) := by
  unfold processOrder lockOrder processOrderBody findOrderByAppmaxId findShopifyOrderId
    formatOrderData
  simp only [emptyWorld, allSuccessEnv]
  rw [if_neg h, if_neg (List.not_mem_nil o.id)]
  dsimp only
  simp only [List.find?_nil, Option.map_none', if_true]
  simp [createdOf, worldAfterCreate, saveOrderMapping, releaseLock, clientCreateOrder]
  exact ⟨rfl, rfl, rfl⟩

/-- Against the world the first run left, the same call resolves the order
through the stored mapping (no remote search) and updates it in place. -/
theorem processOrder_mapped_updates (o : AppmaxOrder) :
    processOrder allSuccessEnv (worldAfterCreate o) (some o) "paid" "paid" =
      (.ok (updatedOf o), worldAfterUpdate o) := by
  unfold processOrder lockOrder processOrderBody findOrderByAppmaxId findShopifyOrderId
    updateOrder getOrder getOrderRemote putOrder applyStatusMutation
  simp [worldAfterCreate, createdOf, updatedOf, worldAfterUpdate, allSuccessEnv, releaseLock,
    parseShopifyIdNat, digitsToNat]

/-- C3: synchronizing the same payload twice with a paid transition never
yields two sink orders.  The first invocation creates the sink order and
records the `sourceOrderId ↦ sinkOrderId` mapping; the second resolves it
through the Mapping Store fast path (the remote-search counter does not
move) and performs an update (one PUT, no second create), leaving exactly
one sink order tagged with the source id. -/
theorem C3_idempotent_creation (o : AppmaxOrder) (h : orderLineItems o ≠ []) :
    processOrder allSuccessEnv emptyWorld (some o) "paid" "paid" =
      (.ok (createdOf o), worldAfterCreate o) ∧
    findShopifyOrderId (worldAfterCreate o) o.id = some "1" ∧
    processOrder allSuccessEnv (worldAfterCreate o) (some o) "paid" "paid" =
      (.ok (updatedOf o), worldAfterUpdate o) ∧
    (worldAfterUpdate o).createCalls = 1 ∧
    (worldAfterUpdate o).putCalls = 1 ∧
    (worldAfterUpdate o).searchCalls = (worldAfterCreate o).searchCalls ∧
    ((worldAfterUpdate o).shopifyOrders.filter (hasAppmaxAttr o.id)).length = 1 := by
  refine ⟨processOrder_fresh_creates o h, ?_, processOrder_mapped_updates o, rfl, rfl, rfl, ?_⟩
  · simp [findShopifyOrderId, worldAfterCreate]
  · simp [worldAfterUpdate, updatedOf, hasAppmaxAttr, formatNoteAttributes, baseNoteAttributes]

/-- Witness for C3 on the sample payload: creation on the first run, pure
update on the second, single tagged sink order at the end. -/
theorem C3_idempotent_creation_witness :
    processOrder allSuccessEnv emptyWorld (some sampleOrder) "paid" "paid" =
      (.ok (createdOf sampleOrder), worldAfterCreate sampleOrder) ∧
    processOrder allSuccessEnv (worldAfterCreate sampleOrder) (some sampleOrder) "paid" "paid" =
      (.ok (updatedOf sampleOrder), worldAfterUpdate sampleOrder) ∧
    ((worldAfterUpdate sampleOrder).shopifyOrders.filter (hasAppmaxAttr sampleOrder.id)).length = 1 := by
  have h := C3_idempotent_creation sampleOrder (by decide)
  exact ⟨h.1, h.2.2.1, h.2.2.2.2.2.2⟩
